import Mathlib

/-!
# VeridianOS boot-image / boot-verification pipeline: a shallow embedding

This file embeds the three Python scripts of the repository

  * `scripts/testing/test-x86-kernel.py`
  * `scripts/build-disk-image.py`
  * `create-uefi-image.py`

as pure Lean functions over an explicit environment describing the
behaviour of the outside world (the filesystem, the `objdump` tool, the
`qemu-system-x86_64` hypervisor, the `python3` interpreter and the
`bootloader` image library).  The `main` of each script becomes a
function from such an environment to a record of everything observable:
the lines it printed, the child processes it actually started, and its
final outcome (a process exit code, a returned Python value, or an
uncaught exception).  Theorems about the claims of the specification
follow the definitions.
-/

set_option maxRecDepth 100000

namespace Veridian

/-- Substring containment, modelling the Python expression
`needle in hay` on `str` values: `needle` occurs contiguously
somewhere inside `hay`. -/
def strContains (hay needle : String) : Bool :=
  decide (needle.toList <:+: hay.toList)

theorem strContains_iff (hay needle : String) :
    strContains hay needle = true ↔ needle.toList <:+: hay.toList := by
  simp [strContains]

/-- The result of a completed `subprocess.run` call: captured stdout,
captured stderr, and the exit code of the child. -/
structure RunResult where
  stdout : String
  stderr : String
  returncode : Int
deriving DecidableEq, Repr

/-- How a spawned child process behaves: it completes within the
wall-clock timeout with a `RunResult`; it is still running when the
deadline expires (Python raises `TimeoutExpired`, carrying the output
captured so far); or the binary is absent from the system (Python
raises `FileNotFoundError` and no child runs). -/
inductive ProcBehavior where
  | completes (r : RunResult)
  | timesOut (partialOut partialErr : String)
  | missing
deriving DecidableEq, Repr

/-- How a script run ends: with a process exit code (via `return` from
`main` fed to `sys.exit`, or via `sys.exit` directly), or with an
uncaught Python exception aborting the interpreter. -/
inductive Outcome where
  | exitCode (code : Int)
  | uncaught (exn : String)
deriving DecidableEq, Repr

/-- Everything observable about one run of a script. -/
structure ScriptRun where
  printed : List String
  spawned : List (List String)
  outcome : Outcome
deriving DecidableEq, Repr

/-- The kernel path that all three scripts use. -/
def kernelPathStr : String := "target/x86_64-unknown-none/debug/veridian-kernel"

/-- Python join of an argument vector with single spaces, as in the
statement `print(f"Running: ...")` of the scripts. -/
def joinSpace (cmd : List String) : String :=
  String.intercalate " " cmd

/-! ## `scripts/testing/test-x86-kernel.py` -/

/-- Boot classifications distinguished by the pipeline. -/
inductive Classification where
  | success
  | partialSuccess
  | failure
  | timeout
  | toolMissing
deriving DecidableEq, Repr

/-- The marker classification of `test-x86-kernel.py` lines 53 to 61:
`"BOOTOK" in stdout` classifies success, else `"S6" in stdout`
classifies partial success, else failure. -/
def classify (stdout : String) : Classification :=
  if strContains stdout "BOOTOK" then .success
  else if strContains stdout "S6" then .partialSuccess
  else .failure

/-- The `objdump -h <kernel>` command of `test-x86-kernel.py`. -/
def objdumpCmd : List String := ["objdump", "-h", kernelPathStr]

/-- The QEMU command line of `test-x86-kernel.py`. -/
def testQemuCmd : List String :=
  ["qemu-system-x86_64",
   "-kernel", kernelPathStr,
   "-append", "console=ttyS0",
   "-serial", "stdio",
   "-display", "none",
   "-m", "512M",
   "-no-reboot",
   "-no-shutdown",
   "-device", "isa-debug-exit,iobase=0xf4,iosize=0x04"]

/-- The environment a run of `test-x86-kernel.py` observes. -/
structure TestEnv where
  kernelExists : Bool
  objdumpBehavior : ProcBehavior
  qemuBehavior : ProcBehavior
deriving DecidableEq, Repr

/-- The outcome line printed by `test-x86-kernel.py` on each
terminal path of its `try` block. -/
def classificationLine (c : Classification) : String :=
  match c with
  | .success => "✅ SUCCESS: Found BOOTOK in output!"
  | .partialSuccess => "✅ PARTIAL SUCCESS: Found Stage 6 but no BOOTOK"
  | .failure => "❌ No Stage 6 or BOOTOK found in output"
  | .timeout => "⏰ QEMU timed out after 15 seconds - checking if kernel is running..."
  | .toolMissing => "❌ QEMU not found. Please install qemu-system-x86_64"

/-- The exit code `test-x86-kernel.py` returns on each terminal path. -/
def classificationExit (c : Classification) : Int :=
  match c with
  | .success => 0
  | .partialSuccess => 0
  | .failure => 1
  | .timeout => 2
  | .toolMissing => 1

/-- The function `main` of `scripts/testing/test-x86-kernel.py`.  The
`objdump` invocation is not inside any `try` block: if that tool is
absent, the `FileNotFoundError` is uncaught and the interpreter
aborts.  Only the QEMU invocation is wrapped in
`try`/`except TimeoutExpired`/`except FileNotFoundError`. -/
def testMain (env : TestEnv) : ScriptRun :=
  if !env.kernelExists then
    { printed := ["Kernel binary not found at: " ++ kernelPathStr],
      spawned := [],
      outcome := .exitCode 1 }
  else
    let p1 := ["Testing x86_64 kernel: " ++ kernelPathStr,
               "Creating simple test with QEMU multiboot..."]
    match env.objdumpBehavior with
    | .missing =>
        { printed := p1,
          spawned := [],
          outcome := .uncaught "FileNotFoundError" }
    | .timesOut _ _ =>
        -- `subprocess.run` without a `timeout=` argument never raises
        -- `TimeoutExpired`; this constructor cannot arise for objdump,
        -- but if it did the exception would equally be uncaught.
        { printed := p1,
          spawned := [objdumpCmd],
          outcome := .uncaught "TimeoutExpired" }
    | .completes od =>
        let p2 := p1 ++ ["Kernel sections:", od.stdout,
                         "Running: " ++ joinSpace testQemuCmd]
        match env.qemuBehavior with
        | .missing =>
            { printed := p2 ++ [classificationLine .toolMissing],
              spawned := [objdumpCmd],
              outcome := .exitCode (classificationExit .toolMissing) }
        | .timesOut _ _ =>
            { printed := p2 ++ [classificationLine .timeout],
              spawned := [objdumpCmd, testQemuCmd],
              outcome := .exitCode (classificationExit .timeout) }
        | .completes r =>
            let p3 := p2 ++ ["QEMU stdout:", r.stdout,
                             "QEMU stderr:", r.stderr,
                             "QEMU exit code: " ++ toString r.returncode]
            let c := classify r.stdout
            { printed := p3 ++ [classificationLine c],
              spawned := [objdumpCmd, testQemuCmd],
              outcome := .exitCode (classificationExit c) }

/-! ## `scripts/build-disk-image.py` -/

/-- The QEMU command line of `build-disk-image.py`. -/
def buildQemuCmd : List String :=
  ["qemu-system-x86_64",
   "-kernel", kernelPathStr,
   "-serial", "stdio",
   "-display", "none",
   "-no-reboot",
   "-no-shutdown"]

/-- The environment a run of `build-disk-image.py` observes. -/
structure BuildDiskEnv where
  kernelExists : Bool
  qemuBehavior : ProcBehavior
deriving DecidableEq, Repr

/-- The function `main` of `scripts/build-disk-image.py`.  The QEMU
invocation is wrapped in `try`/`except TimeoutExpired`/`except
FileNotFoundError`; a timeout is reported as possibly normal and
control falls through to `return 0`. -/
def buildDiskMain (env : BuildDiskEnv) : ScriptRun :=
  if !env.kernelExists then
    { printed := ["Kernel binary not found at: " ++ kernelPathStr],
      spawned := [],
      outcome := .exitCode 1 }
  else
    let p1 := ["Creating simple disk image for kernel: " ++ kernelPathStr,
               "Testing x86_64 kernel boot with QEMU...",
               "Running: " ++ joinSpace buildQemuCmd]
    match env.qemuBehavior with
    | .missing =>
        { printed := p1 ++ ["QEMU not found. Please install qemu-system-x86_64"],
          spawned := [],
          outcome := .exitCode 1 }
    | .timesOut _ _ =>
        { printed := p1 ++
            ["QEMU timed out after 30 seconds - this might be normal for a looping kernel"],
          spawned := [buildQemuCmd],
          outcome := .exitCode 0 }
    | .completes r =>
        { printed := p1 ++ ["QEMU stdout:", r.stdout,
                            "QEMU stderr:", r.stderr,
                            "QEMU exit code: " ++ toString r.returncode],
          spawned := [buildQemuCmd],
          outcome := .exitCode 0 }

/-! ## `create-uefi-image.py` -/

/-- The output image path of `create-uefi-image.py`. -/
def outputImageStr : String := "veridian-uefi.img"

/-- The inline Python program that `create-uefi-image.py` passes to a
nested `python3 -c` interpreter (its shim to the `bootloader` image
library), as a single string. -/
def shimCode : String :=
  "\nimport bootloader\nimport sys\n\n# Try to create UEFI image only\nkernel_path = sys.argv[1]\noutput_path = sys.argv[2]\n\n# This should work since UEFI components compile successfully\ntry:\n    disk_image = bootloader.create_disk_images(kernel_path, uefi=True, bios=False)\n    with open(output_path, \x27wb\x27) as f:\n        f.write(disk_image.uefi)\n    print(f\x22UEFI image created: {output_path}\x22)\nexcept Exception as e:\n    print(f\x22Error: {e}\x22)\n    sys.exit(1)\n            "

/-- The command vector `create-uefi-image.py` hands to `run_command`
for the UEFI build attempt. -/
def shimCmd : List String :=
  ["python3", "-c", shimCode, kernelPathStr, outputImageStr]

/-- Behaviour of the external `bootloader.create_disk_images` library
call inside the shim: either it returns the UEFI image bytes, or it
raises an exception with some message. -/
inductive LibResult where
  | ok (uefiBytes : List Nat)
  | raises (msg : String)
deriving DecidableEq, Repr

/-- The shim process, run with the behaviour of the library as input.
It returns the `RunResult` the outer `run_command` captures, and the
content of the image file the shim leaves on disk (`none` when it
writes no file).  On a library exception the shim prints the message
to its own (captured) stdout and exits 1 before any file is opened. -/
def runShim (lib : LibResult) : RunResult × Option (List Nat) :=
  match lib with
  | .ok bytes =>
      ({ stdout := "UEFI image created: " ++ outputImageStr,
         stderr := "", returncode := 0 }, some bytes)
  | .raises msg =>
      ({ stdout := "Error: " ++ msg,
         stderr := "", returncode := 1 }, none)

/-- A Python value returned by the `main` of `create-uefi-image.py`:
`None` (the bare `return` on the success path, line 64) or `False`
(the `return False` at the end of the fallback path, line 96). -/
inductive PyRet where
  | noneVal
  | falseVal
deriving DecidableEq, Repr

/-- How a run of `create-uefi-image.py` ends: `sys.exit(code)` was
called, or `main` returned a value.  The top-level `if __name__`
block calls `main()` without passing the result to `sys.exit`, so a
returned value always yields process exit code 0. -/
inductive UefiOutcome where
  | sysExited (code : Int)
  | returned (v : PyRet)
deriving DecidableEq, Repr

/-- Everything observable about one run of `create-uefi-image.py`. -/
structure UefiRun where
  printed : List String
  spawned : List (List String)
  file : Option (List Nat)
  outcome : UefiOutcome
deriving DecidableEq, Repr

/-- The process exit code of `create-uefi-image.py`: the argument of
`sys.exit` when it was called, else 0 (the `if __name__` block
discards the value `main` returns). -/
def uefiProcessExit (run : UefiRun) : Int :=
  match run.outcome with
  | .sysExited c => c
  | .returned _ => 0

/-- The environment a run of `create-uefi-image.py` observes. -/
structure UefiEnv where
  kernelExists : Bool
  pythonAvailable : Bool
  lib : LibResult
deriving DecidableEq, Repr

/-- The remediation message `create-uefi-image.py` prints when the
kernel artifact is missing. -/
def remediationLine : String :=
  "Please build the kernel first with: cargo build --target x86_64-unknown-none -p veridian-kernel"

/-- The lines printed by the fallback/manual path of
`create-uefi-image.py` (lines 73 to 96). -/
def fallbackLines : List String :=
  ["Falling back to manual UEFI image creation...",
   "Note: Manual UEFI creation requires a proper UEFI bootloader",
   "The kernel needs to be linked as a UEFI application, not raw kernel",
   "",
   "Alternative approaches:",
   "1. Use GRUB with multiboot2 (ISO creation)",
   "2. Wait for bootloader 0.11 BIOS fix",
   "3. Downgrade to bootloader 0.9 temporarily"]

/-- The function `main` of `create-uefi-image.py`.  On a missing
kernel it prints an error with the remediation command and calls
`sys.exit(1)` before spawning anything.  Otherwise it runs the shim
through `run_command` with `check=False`: a zero shim exit code takes
the success path and returns `None`; any other shim exit code, or a
missing `python3` interpreter (whose `FileNotFoundError` the broad
`except Exception` of the `try` block catches), falls through to the
fallback path, which prints alternatives and returns `False`. -/
def uefiMain (env : UefiEnv) : UefiRun :=
  let p0 := ["Creating UEFI-bootable disk image for VeridianOS x86_64..."]
  if !env.kernelExists then
    { printed := p0 ++ ["Error: Kernel not found at " ++ kernelPathStr,
                        remediationLine],
      spawned := [], file := none, outcome := .sysExited 1 }
  else
    let pRun := p0 ++ ["Running: " ++ joinSpace shimCmd]
    if !env.pythonAvailable then
      { printed := pRun ++
          ["Bootloader approach failed: [Errno 2] No such file or directory: \x27python3\x27"]
          ++ fallbackLines,
        spawned := [], file := none, outcome := .returned .falseVal }
    else
      let (r, file) := runShim env.lib
      if r.returncode == 0 then
        { printed := pRun ++
            ["UEFI image created: " ++ outputImageStr,
             "",
             "To test with QEMU (UEFI):",
             "  qemu-system-x86_64 -drive format=raw,file=" ++ outputImageStr
               ++ " -bios /usr/share/OVMF/OVMF_CODE.fd -serial stdio -display none"],
          spawned := [shimCmd], file := file, outcome := .returned .noneVal }
      else
        { printed := pRun ++ fallbackLines,
          spawned := [shimCmd], file := file, outcome := .returned .falseVal }

/-! ## Theorems about the claims -/

/-- C1: for every captured stdout of a completed launch, the
classification is by ordered first-match substring containment: stdout
containing `BOOTOK` anywhere classifies success (even when `S6` is
also present); else containing `S6` anywhere classifies partial
success; else failure. -/
theorem C1_marker_first_match (out : String) :
    ("BOOTOK".toList <:+: out.toList → classify out = .success) ∧
    (¬ ("BOOTOK".toList <:+: out.toList) → "S6".toList <:+: out.toList →
      classify out = .partialSuccess) ∧
    (¬ ("BOOTOK".toList <:+: out.toList) → ¬ ("S6".toList <:+: out.toList) →
      classify out = .failure) := by
  refine ⟨fun h => ?_, fun h1 h2 => ?_, fun h1 h2 => ?_⟩ <;>
    simp_all [classify, strContains, String.toList]

/-- Witness for C1 at a concrete stdout that contains both markers. -/
theorem C1_witness :
    classify "xxS6yyBOOTOKzz" = .success :=
  (C1_marker_first_match "xxS6yyBOOTOKzz").1 (by decide)

/-- C3: a launch of `test-x86-kernel.py` whose QEMU child is still
running at the deadline is classified timeout (exit code 2, with the
timeout line reported last), never failure, and the run is entirely
independent of whatever partial stdout/stderr had been captured before
the deadline: marker matching is short-circuited. -/
theorem C3_timeout_short_circuits (od : RunResult) (po pe po' pe' : String) :
    (testMain ⟨true, .completes od, .timesOut po pe⟩).outcome = .exitCode 2 ∧
    (testMain ⟨true, .completes od, .timesOut po pe⟩).printed.getLast?
      = some (classificationLine .timeout) ∧
    classificationLine .timeout ≠ classificationLine .failure ∧
    testMain ⟨true, .completes od, .timesOut po pe⟩
      = testMain ⟨true, .completes od, .timesOut po' pe'⟩ := by
  refine ⟨rfl, ?_, by decide, rfl⟩
  simp [testMain, List.getLast?_concat]

/-- C5: when the hypervisor binary is absent, both launch scripts
return an exit code of 1 through the tool-missing path (printing its
report line) instead of aborting with an uncaught exception. -/
theorem C5_tool_missing (od : RunResult) :
    (testMain ⟨true, .completes od, .missing⟩).outcome = .exitCode 1 ∧
    classificationLine .toolMissing
      ∈ (testMain ⟨true, .completes od, .missing⟩).printed ∧
    (buildDiskMain ⟨true, .missing⟩).outcome = .exitCode 1 ∧
    "QEMU not found. Please install qemu-system-x86_64"
      ∈ (buildDiskMain ⟨true, .missing⟩).printed := by
  refine ⟨rfl, ?_, rfl, ?_⟩ <;> simp [testMain, buildDiskMain]

/-- C10: boot classification is deterministic in the captured stdout:
two completed launches with identical captured stdout produce the same
outcome, the reported classification line and the exit code being
functions of that stdout alone, independent of stderr, the exit code
of the child, and the objdump output. -/
theorem C10_deterministic (out : String) (od od' : RunResult)
    (err err' : String) (rc rc' : Int) :
    (testMain ⟨true, .completes od, .completes ⟨out, err, rc⟩⟩).outcome
      = (testMain ⟨true, .completes od', .completes ⟨out, err', rc'⟩⟩).outcome ∧
    (testMain ⟨true, .completes od, .completes ⟨out, err, rc⟩⟩).outcome
      = .exitCode (classificationExit (classify out)) ∧
    (testMain ⟨true, .completes od, .completes ⟨out, err, rc⟩⟩).printed.getLast?
      = some (classificationLine (classify out)) := by
  refine ⟨rfl, rfl, ?_⟩
  simp [testMain, List.getLast?_concat]

/-- C2 counterexample: in `build-disk-image.py` a timed-out launch
yields process exit code 0, not the exit code 2 the claim states for
timeouts. -/
theorem C2_counterexample :
    (buildDiskMain ⟨true, .timesOut "" ""⟩).outcome = .exitCode 0 ∧
    Outcome.exitCode 0 ≠ Outcome.exitCode 2 := by
  exact ⟨rfl, by decide⟩

/-- C2 amended: `test-x86-kernel.py` exits 0 on success or partial
success, 1 on failure (no markers), missing artifact or missing
hypervisor, and 2 on timeout; `build-disk-image.py` exits 1 on missing
artifact or missing hypervisor, but 0 on timeout and 0 on every
completed launch regardless of output. -/
theorem C2_exit_codes :
    (∀ od r, classify r.stdout = .success ∨ classify r.stdout = .partialSuccess →
      (testMain ⟨true, .completes od, .completes r⟩).outcome = .exitCode 0) ∧
    (∀ od r, classify r.stdout = .failure →
      (testMain ⟨true, .completes od, .completes r⟩).outcome = .exitCode 1) ∧
    (∀ ob qb, (testMain ⟨false, ob, qb⟩).outcome = .exitCode 1) ∧
    (∀ od, (testMain ⟨true, .completes od, .missing⟩).outcome = .exitCode 1) ∧
    (∀ od po pe,
      (testMain ⟨true, .completes od, .timesOut po pe⟩).outcome = .exitCode 2) ∧
    (∀ qb, (buildDiskMain ⟨false, qb⟩).outcome = .exitCode 1) ∧
    ((buildDiskMain ⟨true, .missing⟩).outcome = .exitCode 1) ∧
    (∀ po pe, (buildDiskMain ⟨true, .timesOut po pe⟩).outcome = .exitCode 0) ∧
    (∀ r, (buildDiskMain ⟨true, .completes r⟩).outcome = .exitCode 0) := by
  refine ⟨fun od r h => ?_, fun od r h => ?_, fun ob qb => rfl, fun od => rfl,
          fun od po pe => rfl, fun qb => rfl, rfl, fun po pe => rfl, fun r => rfl⟩
  · show Outcome.exitCode (classificationExit (classify r.stdout)) = .exitCode 0
    rcases h with h | h <;> rw [h] <;> rfl
  · show Outcome.exitCode (classificationExit (classify r.stdout)) = .exitCode 1
    rw [h]
    rfl

/-- Witness for C2 amended at a concrete successful launch. -/
theorem C2_witness :
    (testMain ⟨true, .completes ⟨"", "", 0⟩,
               .completes ⟨"S5 S6 BOOTOK", "", 33⟩⟩).outcome = .exitCode 0 :=
  C2_exit_codes.1 ⟨"", "", 0⟩ ⟨"S5 S6 BOOTOK", "", 33⟩ (Or.inl (by decide))

/-- C4 counterexample: with the kernel artifact absent,
`build-disk-image.py` exits 1 without spawning anything, but its only
reported line does not contain the remediation build-command text. -/
theorem C4_counterexample :
    (buildDiskMain ⟨false, .missing⟩).printed
      = ["Kernel binary not found at: target/x86_64-unknown-none/debug/veridian-kernel"] ∧
    strContains
      "Kernel binary not found at: target/x86_64-unknown-none/debug/veridian-kernel"
      "cargo build" = false ∧
    (buildDiskMain ⟨false, .missing⟩).outcome = .exitCode 1 := by
  exact ⟨rfl, by decide, rfl⟩

/-- C4 amended: on a missing kernel path every script fails fast with
exit code 1 and spawns no child process, but only
`create-uefi-image.py` prints the remediation build command;
`test-x86-kernel.py` and `build-disk-image.py` report only the
not-found path. -/
theorem C4_missing_kernel :
    (∀ ob qb, (testMain ⟨false, ob, qb⟩).outcome = .exitCode 1 ∧
      (testMain ⟨false, ob, qb⟩).spawned = [] ∧
      (testMain ⟨false, ob, qb⟩).printed
        = ["Kernel binary not found at: " ++ kernelPathStr]) ∧
    (∀ qb, (buildDiskMain ⟨false, qb⟩).outcome = .exitCode 1 ∧
      (buildDiskMain ⟨false, qb⟩).spawned = [] ∧
      (buildDiskMain ⟨false, qb⟩).printed
        = ["Kernel binary not found at: " ++ kernelPathStr]) ∧
    (∀ pa lib, (uefiMain ⟨false, pa, lib⟩).outcome = .sysExited 1 ∧
      (uefiMain ⟨false, pa, lib⟩).spawned = [] ∧
      remediationLine ∈ (uefiMain ⟨false, pa, lib⟩).printed) ∧
    strContains remediationLine "cargo build" = true := by
  refine ⟨fun ob qb => ⟨rfl, rfl, rfl⟩, fun qb => ⟨rfl, rfl, rfl⟩,
          fun pa lib => ⟨rfl, rfl, ?_⟩, by decide⟩
  exact .tail _ (.tail _ (.head _))

/-- C6 counterexample: the fallback/manual path of
`create-uefi-image.py` produces the same process exit code, 0, as a
fully successful UEFI build, so an invoking process cannot tell the
fallback apart from success. -/
theorem C6_counterexample :
    uefiProcessExit (uefiMain ⟨true, true, .raises "bootloader build failed"⟩) = 0 ∧
    uefiProcessExit (uefiMain ⟨true, true, .ok [80, 75, 3, 4]⟩) = 0 := by
  exact ⟨rfl, rfl⟩

/-- C6 amended: the fallback path of `main` returns `False` while the
success path returns `None`, so an in-process caller inspecting the
returned value could distinguish them; but no structured Unsupported
result is produced (the alternative strategies are only printed), the
script invokes `main()` without `sys.exit`, and the process exit code
is 0 on both paths, so the fallback is indistinguishable from success
at the process level. -/
theorem C6_fallback_outcome (msg : String) (bytes : List Nat) (lib : LibResult) :
    (uefiMain ⟨true, true, .raises msg⟩).outcome = .returned .falseVal ∧
    (uefiMain ⟨true, false, lib⟩).outcome = .returned .falseVal ∧
    (uefiMain ⟨true, true, .ok bytes⟩).outcome = .returned .noneVal ∧
    UefiOutcome.returned .falseVal ≠ UefiOutcome.returned .noneVal ∧
    "Alternative approaches:" ∈ (uefiMain ⟨true, true, .raises msg⟩).printed ∧
    uefiProcessExit (uefiMain ⟨true, true, .raises msg⟩)
      = uefiProcessExit (uefiMain ⟨true, true, .ok bytes⟩) := by
  refine ⟨rfl, rfl, rfl, by decide, ?_, rfl⟩
  exact .tail _ (.tail _ (.tail _ (.tail _ (.tail _ (.tail _ (.head _))))))

/-- C7 counterexample: on the timeout path of `test-x86-kernel.py`
the partial stdout captured before the deadline is not surfaced: no
printed line contains it; only the timeout notice is reported. -/
theorem C7_counterexample :
    ((testMain ⟨true, .completes ⟨"", "", 0⟩,
                .timesOut "S6 partial boot log" "serial noise"⟩).printed.any
      (fun l => strContains l "S6 partial boot log")) = false ∧
    (testMain ⟨true, .completes ⟨"", "", 0⟩,
               .timesOut "S6 partial boot log" "serial noise"⟩).outcome
      = .exitCode 2 := by
  exact ⟨by decide, rfl⟩

/-- C7 amended: on every completed launch both scripts print the
captured stdout and stderr in full, and `test-x86-kernel.py` reports
its classification line last, after that output; but on the timeout
path the partial captured output is discarded and only a timeout
notice is printed. -/
theorem C7_output_surfaced (od r : RunResult) :
    r.stdout ∈ (testMain ⟨true, .completes od, .completes r⟩).printed ∧
    r.stderr ∈ (testMain ⟨true, .completes od, .completes r⟩).printed ∧
    (testMain ⟨true, .completes od, .completes r⟩).printed.getLast?
      = some (classificationLine (classify r.stdout)) ∧
    r.stdout ∈ (buildDiskMain ⟨true, .completes r⟩).printed ∧
    r.stderr ∈ (buildDiskMain ⟨true, .completes r⟩).printed := by
  refine ⟨?_, ?_, ?_, ?_, ?_⟩ <;>
    simp [testMain, buildDiskMain, List.getLast?_concat]

/-- C8 counterexample: the binary-inspection step is on the abort
path: when `objdump` is absent, `test-x86-kernel.py` dies with an
uncaught `FileNotFoundError` before launching QEMU, whereas the same
environment with `objdump` present classifies success with exit code
0. -/
theorem C8_counterexample :
    (testMain ⟨true, .missing, .completes ⟨"BOOTOK", "", 33⟩⟩).outcome
      = .uncaught "FileNotFoundError" ∧
    (testMain ⟨true, .missing, .completes ⟨"BOOTOK", "", 33⟩⟩).spawned = [] ∧
    (testMain ⟨true, .completes ⟨"sections", "", 0⟩,
               .completes ⟨"BOOTOK", "", 33⟩⟩).outcome = .exitCode 0 := by
  exact ⟨rfl, rfl, by decide⟩

/-- C8 amended: when the `objdump` invocation completes, its captured
output and exit status have no effect on the outcome or on the
processes spawned afterwards (it is purely diagnostic); but when the
`objdump` binary is absent, the uncaught `FileNotFoundError` aborts
the run before QEMU is ever spawned. -/
theorem C8_objdump_diagnostic (od od' : RunResult) (qb : ProcBehavior) :
    (testMain ⟨true, .completes od, qb⟩).outcome
      = (testMain ⟨true, .completes od', qb⟩).outcome ∧
    (testMain ⟨true, .completes od, qb⟩).spawned
      = (testMain ⟨true, .completes od', qb⟩).spawned ∧
    (testMain ⟨true, .missing, qb⟩).outcome = .uncaught "FileNotFoundError" ∧
    (testMain ⟨true, .missing, qb⟩).spawned = [] := by
  cases qb <;> exact ⟨rfl, rfl, rfl, rfl⟩

/-- C9 counterexample: when the external library raises an exception
with message `boom`, no line printed by `create-uefi-image.py`
contains that message — the shim captured it, and the outer script
discards it while falling through to the fallback path. -/
theorem C9_counterexample :
    ((uefiMain ⟨true, true, .raises "boom"⟩).printed.any
      (fun l => strContains l "boom")) = false ∧
    (uefiMain ⟨true, true, .raises "boom"⟩).outcome = .returned .falseVal := by
  exact ⟨by decide, rfl⟩

/-- C9 amended: when the external library raises, no image file is
written and the builder does not claim success — it falls through to
the fallback path and returns `False`; but the underlying message
appears only in the stdout captured from the shim, and the printed
lines of the builder are a fixed list independent of that message, so
the message is never surfaced to the operator. -/
theorem C9_lib_error_no_artifact (msg : String) :
    (uefiMain ⟨true, true, .raises msg⟩).file = none ∧
    (runShim (.raises msg)).1.stdout = "Error: " ++ msg ∧
    (uefiMain ⟨true, true, .raises msg⟩).printed
      = ["Creating UEFI-bootable disk image for VeridianOS x86_64...",
         "Running: " ++ joinSpace shimCmd] ++ fallbackLines ∧
    (uefiMain ⟨true, true, .raises msg⟩).outcome = .returned .falseVal := by
  exact ⟨rfl, rfl, rfl, rfl⟩

end Veridian
